import Mathlib

/-!
Verification of `tools/kconfig_to_cmake.py` (AeroSync).

The script translates a Kconfig symbol tree plus a saved `.config`
selection into a CMake cache snippet.  We embed the translation pass
(`_generate_cache` and its helpers) as pure Lean functions:

* a `KSym` mirrors the `{name, type, tri_value, str_value}` view of a
  kconfiglib symbol that the script reads;
* `CacheState` mirrors the `defines` dict (as an insertion-ordered
  association list with Python-dict overwrite semantics) and the
  `cmake_sets` list;
* `processSym` mirrors one iteration of the `for sym in
  kconf.unique_defined_syms` loop body;
* `output_lines` / `output_text` mirror the assembly and `"\n".join`;
* `generate_cache` mirrors the top-level control flow of
  `_generate_cache`, with the environment (module availability, file
  existence, the enumerated symbols) made explicit.
-/

/-- The symbol types the script distinguishes (`kconfiglib.BOOL`,
`TRISTATE`, `INT`, `HEX`, `STRING`); `unknown` stands for any other
type, which the loop body ignores. -/
inductive SymType where
  | bool
  | tristate
  | int
  | hex
  | str
  | unknown
deriving DecidableEq, Repr

/-- The view of a kconfiglib symbol read by the script: `sym.name`,
`sym.type`, `sym.tri_value` (0 / 1 / 2) and `sym.str_value`
(modelled as `Option String` because the script checks
`value in (None, "")`). -/
structure KSym where
  name : String
  type : SymType
  triValue : Nat
  strValue : Option String
deriving DecidableEq, Repr

/-- `value.replace(c, r)` for a single-character pattern `c`, on the
underlying character list: each occurrence of `c` is replaced by `r`. -/
def replaceCharList (c : Char) (r : List Char) : List Char → List Char
  | [] => []
  | x :: xs => (if x = c then r else [x]) ++ replaceCharList c r xs

/-- Single-character `str.replace` on strings. -/
def replaceChar (s : String) (c : Char) (r : String) : String :=
  ⟨replaceCharList c r.data s.data⟩

/-- `_cmake_escape`: `value.replace("\\", "\\\\").replace("\"", "\\\"")`. -/
def cmake_escape (value : String) : String :=
  replaceChar (replaceChar value '\\' "\\\\") '"' "\\\""

/-- The text `_write_minimal_output` writes. -/
def minimal_output_text : String :=
  "# Auto-generated placeholder. Run menuconfig to populate symbols.\nset(AEROSYNC_KCONFIG_DEFINES)\n"

/-- Python-dict assignment `d[k] = v` on an insertion-ordered
association list: overwrite in place if the key is present, append
otherwise. -/
def dictInsert (d : List (String × String)) (k v : String) :
    List (String × String) :=
  if k ∈ d.map Prod.fst then
    d.map (fun p => if p.1 = k then (k, v) else p)
  else
    d ++ [(k, v)]

/-- The mutable state of the loop in `_generate_cache`: the `defines`
dict and the `cmake_sets` list. -/
structure CacheState where
  defines : List (String × String)
  cmake_sets : List String
deriving DecidableEq, Repr

/-- The initial state: `defines = {}`, `cmake_sets = []`. -/
def initState : CacheState := { defines := [], cmake_sets := [] }

/-- `set_define(name, value)`. -/
def set_define (st : CacheState) (name value : String) : CacheState :=
  { st with defines := dictInsert st.defines name value }

/-- `emit_symbol(name, value, plain=...)`. -/
def emit_symbol (st : CacheState) (name value : String) (plain : Bool) :
    CacheState :=
  let st1 := if plain then set_define st name value else st
  set_define st1 ("CONFIG_" ++ name) value

/-- One iteration of the `for sym in kconf.unique_defined_syms` loop. -/
def processSym (st : CacheState) (sym : KSym) : CacheState :=
  if sym.name = "" then st
  else if sym.type = SymType.bool ∨ sym.type = SymType.tristate then
    if sym.triValue = 0 then st
    else if sym.triValue = 2 then
      let st1 := emit_symbol st sym.name "1" true
      { st1 with
        cmake_sets := st1.cmake_sets ++
          ["set(CONFIG_" ++ sym.name ++ " \"y\")"] }
    else if sym.triValue = 1 then
      let st1 := emit_symbol st sym.name "m" true
      let st2 := emit_symbol st1 (sym.name ++ "_MODULE") "1" true
      { st2 with
        cmake_sets := st2.cmake_sets ++
          ["set(CONFIG_" ++ sym.name ++ " \"m\")"] }
    else st
  else if sym.type = SymType.int ∨ sym.type = SymType.hex ∨
      sym.type = SymType.str then
    match sym.strValue with
    | none => st
    | some value =>
      if value = "" then st
      else
        let st1 :=
          if sym.type = SymType.str then
            emit_symbol st sym.name ("\"" ++ value ++ "\"") true
          else
            emit_symbol st sym.name value true
        { st1 with
          cmake_sets := st1.cmake_sets ++
            ["set(CONFIG_" ++ sym.name ++ " \"" ++ cmake_escape value ++ "\")"] }
  else st

/-- The whole loop, from the empty state. -/
def processSyms (syms : List KSym) : CacheState :=
  syms.foldl processSym initState

/-- Dict lookup `defines[name]` (total; `name` is always a key when used). -/
def lookupD (d : List (String × String)) (k : String) : String :=
  (((d.find? (fun p => p.1 = k)).map Prod.snd).getD "")

/-- The order Python's `sorted` uses on strings: lexicographic
comparison of the code-point sequences. -/
def strDataLe (s t : String) : Prop := s.data ≤ t.data

instance strDataLe_dec : DecidableRel strDataLe := fun s t =>
  inferInstanceAs (Decidable (s.data ≤ t.data))

/-- `sorted(defines)`: the keys of the dict, sorted lexicographically. -/
def sortedNames (st : CacheState) : List String :=
  (st.defines.map Prod.fst).insertionSort strDataLe

/-- The lines of the aggregated `AEROSYNC_KCONFIG_DEFINES` collection:
one `    "name=value"` line per define, in sorted key order, with
name and value escaped. -/
def definesLines (st : CacheState) : List String :=
  (sortedNames st).map (fun name =>
    "    \"" ++ cmake_escape name ++ "=" ++
      cmake_escape (lookupD st.defines name) ++ "\"")

/-- The `output_lines` list assembled at the end of `_generate_cache`. -/
def output_lines (st : CacheState) : List String :=
  ["# This file is auto-generated. Do not edit.",
   "set(AEROSYNC_KCONFIG_DEFINES"] ++
  definesLines st ++
  [")\n"] ++
  st.cmake_sets ++
  ["\n"]

/-- `"\n".join(output_lines)`: the text written to the output file. -/
def output_text (st : CacheState) : String :=
  String.intercalate "\n" (output_lines st)

/-- The environment of one run of `_generate_cache`: whether
`import kconfiglib` succeeds, whether the Kconfig and .config paths
are files, the path strings (used in diagnostics), and the resolved
symbols the parser would enumerate. -/
structure Env where
  kconfiglibAvailable : Bool
  kconfigIsFile : Bool
  configIsFile : Bool
  kconfigPathStr : String
  configPathStr : String
  syms : List KSym

/-- The observable outcome of a run: the exit code, the contents
written to the output file (`none` when the file is not written), and
the messages written to stderr. -/
structure RunResult where
  exitCode : Nat
  output : Option String
  stderr : List String
deriving DecidableEq, Repr

/-- `_generate_cache`: the top-level control flow of the script. -/
def generate_cache (env : Env) : RunResult :=
  if !env.kconfiglibAvailable then
    { exitCode := 1, output := none,
      stderr := ["kconfiglib is not installed.\n"] }
  else if !env.kconfigIsFile then
    { exitCode := 0, output := some minimal_output_text,
      stderr := ["warning: Kconfig file '" ++ env.kconfigPathStr ++
        "' not found; emitting empty cache.\n"] }
  else
    { exitCode := 0,
      output := some (output_text (processSyms env.syms)),
      stderr :=
        if env.configIsFile then []
        else ["warning: config file '" ++ env.configPathStr ++
          "' not found; continuing with defaults.\n"] }

/-- Reading back a quoted CMake string literal body: `\\` decodes to a
backslash and `\"` to a double quote (any `\c` decodes to `c`). -/
def unescapeChars : List Char → List Char
  | [] => []
  | [c] => [c]
  | c1 :: c2 :: rest =>
    if c1 = '\\' then c2 :: unescapeChars rest
    else c1 :: unescapeChars (c2 :: rest)

/-- String version of `unescapeChars`. -/
def unescape (s : String) : String := ⟨unescapeChars s.data⟩

/-- The contribution of a single symbol to `cmake_sets` (derived view of
the loop body, used to state the declaration-order invariant). -/
def symSets (sym : KSym) : List String :=
  if sym.name = "" then []
  else if sym.type = SymType.bool ∨ sym.type = SymType.tristate then
    if sym.triValue = 0 then []
    else if sym.triValue = 2 then ["set(CONFIG_" ++ sym.name ++ " \"y\")"]
    else if sym.triValue = 1 then ["set(CONFIG_" ++ sym.name ++ " \"m\")"]
    else []
  else if sym.type = SymType.int ∨ sym.type = SymType.hex ∨
      sym.type = SymType.str then
    match sym.strValue with
    | none => []
    | some value =>
      if value = "" then []
      else ["set(CONFIG_" ++ sym.name ++ " \"" ++ cmake_escape value ++ "\")"]
  else []

/-! ### Helper lemmas -/

lemma strlen_ne {s t : String} (h : ¬ s.length = t.length) : ¬ s = t :=
  fun he => h (congrArg String.length he)

lemma countC_ne {s t : String} (h : ¬ s.data.count 'C' = t.data.count 'C') :
    ¬ s = t :=
  fun he => h (congrArg (fun u => List.count 'C' u.data) he)

lemma config_key_ne (n : String) : ¬ ("CONFIG_" ++ n = n) := by
  apply strlen_ne
  rw [String.length_append, show ("CONFIG_" : String).length = 7 from rfl]
  omega

lemma module_key_ne (n : String) : ¬ (n ++ "_MODULE" = n) := by
  apply strlen_ne
  rw [String.length_append, show ("_MODULE" : String).length = 7 from rfl]
  omega

lemma module_key_ne_config (n : String) : ¬ (n ++ "_MODULE" = "CONFIG_" ++ n) := by
  apply countC_ne
  rw [String.data_append, String.data_append, List.count_append,
    List.count_append,
    show (("_MODULE" : String).data.count 'C') = 0 from by decide,
    show (("CONFIG_" : String).data.count 'C') = 1 from by decide]
  omega

lemma config_module_key_ne_name (n : String) :
    ¬ ("CONFIG_" ++ (n ++ "_MODULE") = n) := by
  apply strlen_ne
  rw [String.length_append, String.length_append,
    show ("CONFIG_" : String).length = 7 from rfl,
    show ("_MODULE" : String).length = 7 from rfl]
  omega

lemma config_module_key_ne_config (n : String) :
    ¬ ("CONFIG_" ++ (n ++ "_MODULE") = "CONFIG_" ++ n) := by
  apply strlen_ne
  rw [String.length_append, String.length_append, String.length_append,
    show ("CONFIG_" : String).length = 7 from rfl,
    show ("_MODULE" : String).length = 7 from rfl]
  omega

lemma unescapeChars_cons_of_ne (x : Char) (l : List Char) (hx : ¬ x = '\\') :
    unescapeChars (x :: l) = x :: unescapeChars l := by
  cases l with
  | nil => simp [unescapeChars]
  | cons y ys => simp [unescapeChars, hx]

lemma replaceCharList_append (c : Char) (r : List Char) (l₁ l₂ : List Char) :
    replaceCharList c r (l₁ ++ l₂) =
      replaceCharList c r l₁ ++ replaceCharList c r l₂ := by
  induction l₁ with
  | nil => simp [replaceCharList]
  | cons x xs ih => simp [replaceCharList, ih, List.append_assoc]

lemma unescape_escape_list (l : List Char) :
    unescapeChars (replaceCharList '"' ['\\', '"']
      (replaceCharList '\\' ['\\', '\\'] l)) = l := by
  induction l with
  | nil => rfl
  | cons x xs ih =>
    by_cases hb : x = '\\'
    · subst hb
      simp [replaceCharList, replaceCharList_append, unescapeChars, ih]
    · by_cases hq : x = '"'
      · subst hq
        simp [replaceCharList, replaceCharList_append, unescapeChars, ih]
      · have h1 : replaceCharList '\\' ['\\', '\\'] (x :: xs) =
            x :: replaceCharList '\\' ['\\', '\\'] xs := by
          simp [replaceCharList, hb]
        have h2 : ∀ L, replaceCharList '"' ['\\', '"'] (x :: L) =
            x :: replaceCharList '"' ['\\', '"'] L := by
          intro L
          simp [replaceCharList, hq]
        rw [h1, h2, unescapeChars_cons_of_ne x _ hb, ih]

lemma escape_roundtrip (v : String) : unescape (cmake_escape v) = v := by
  show String.mk (unescapeChars (cmake_escape v).data) = v
  have hd : (cmake_escape v).data =
      replaceCharList '"' ['\\', '"']
        (replaceCharList '\\' ['\\', '\\'] v.data) := rfl
  rw [hd, unescape_escape_list]

lemma processSym_cmake_sets (st : CacheState) (sym : KSym) :
    (processSym st sym).cmake_sets = st.cmake_sets ++ symSets sym := by
  by_cases hn : sym.name = ""
  · simp [processSym, symSets, hn]
  by_cases hbt : sym.type = SymType.bool ∨ sym.type = SymType.tristate
  · by_cases h0 : sym.triValue = 0
    · simp [processSym, symSets, hn, hbt, h0]
    · by_cases h2 : sym.triValue = 2
      · simp [processSym, symSets, hn, hbt, h0, h2, emit_symbol, set_define]
      · by_cases h1 : sym.triValue = 1
        · simp [processSym, symSets, hn, hbt, h0, h2, h1, emit_symbol,
            set_define]
        · simp [processSym, symSets, hn, hbt, h0, h2, h1]
  · by_cases hihs : sym.type = SymType.int ∨ sym.type = SymType.hex ∨
        sym.type = SymType.str
    · cases hv : sym.strValue with
      | none => simp [processSym, symSets, hn, hbt, hihs, hv]
      | some v =>
        by_cases hve : v = ""
        · simp [processSym, symSets, hn, hbt, hihs, hv, hve]
        · by_cases hstr : sym.type = SymType.str
          · simp [processSym, symSets, hn, hbt, hihs, hv, hve, hstr,
              emit_symbol, set_define]
          · rcases hihs with h | h | h
            · simp [processSym, symSets, hn, hbt, hv, hve, hstr, h,
                emit_symbol, set_define]
            · simp [processSym, symSets, hn, hbt, hv, hve, hstr, h,
                emit_symbol, set_define]
            · exact absurd h hstr
    · simp [processSym, symSets, hn, hbt, hihs]

lemma foldl_cmake_sets (l : List KSym) (st : CacheState) :
    (l.foldl processSym st).cmake_sets =
      st.cmake_sets ++ (l.map symSets).flatten := by
  induction l generalizing st with
  | nil => simp
  | cons x xs ih =>
    simp [List.foldl_cons, ih, processSym_cmake_sets, List.append_assoc]

lemma processSym_skip_unselected (st : CacheState) (sym : KSym)
    (ht : sym.type = SymType.bool ∨ sym.type = SymType.tristate)
    (hv : sym.triValue = 0) : processSym st sym = st := by
  by_cases hn : sym.name = "" <;> simp [processSym, hn, ht, hv]

lemma singleton_tristate_m_state (sym : KSym) (h1 : ¬ sym.name = "")
    (h2 : sym.type = SymType.tristate) (h3 : sym.triValue = 1) :
    processSyms [sym] =
      { defines := [(sym.name, "m"), ("CONFIG_" ++ sym.name, "m"),
          (sym.name ++ "_MODULE", "1"),
          ("CONFIG_" ++ (sym.name ++ "_MODULE"), "1")],
        cmake_sets := ["set(CONFIG_" ++ sym.name ++ " \"m\")"] } := by
  simp [processSyms, processSym, initState, h1, h2, h3, emit_symbol,
    set_define, dictInsert, config_key_ne, module_key_ne,
    module_key_ne_config, config_module_key_ne_name,
    config_module_key_ne_config]

lemma singleton_bool_y_state (sym : KSym) (h1 : ¬ sym.name = "")
    (h2 : sym.type = SymType.bool) (h3 : sym.triValue = 2) :
    processSyms [sym] =
      { defines := [(sym.name, "1"), ("CONFIG_" ++ sym.name, "1")],
        cmake_sets := ["set(CONFIG_" ++ sym.name ++ " \"y\")"] } := by
  simp [processSyms, processSym, initState, h1, h2, h3, emit_symbol,
    set_define, dictInsert, config_key_ne]

lemma singleton_str_state (sym : KSym) (v : String) (h1 : ¬ sym.name = "")
    (h2 : sym.type = SymType.str) (h3 : sym.strValue = some v)
    (h4 : ¬ v = "") :
    processSyms [sym] =
      { defines := [(sym.name, "\"" ++ v ++ "\""),
          ("CONFIG_" ++ sym.name, "\"" ++ v ++ "\"")],
        cmake_sets :=
          ["set(CONFIG_" ++ sym.name ++ " \"" ++ cmake_escape v ++ "\")"] } := by
  simp [processSyms, processSym, initState, h1, h2, h3, h4, emit_symbol,
    set_define, dictInsert, config_key_ne]

lemma singleton_numeric_state (sym : KSym) (v : String) (h1 : ¬ sym.name = "")
    (h2 : sym.type = SymType.int ∨ sym.type = SymType.hex)
    (h3 : sym.strValue = some v) (h4 : ¬ v = "") :
    processSyms [sym] =
      { defines := [(sym.name, v), ("CONFIG_" ++ sym.name, v)],
        cmake_sets :=
          ["set(CONFIG_" ++ sym.name ++ " \"" ++ cmake_escape v ++ "\")"] } := by
  rcases h2 with h | h <;>
    simp [processSyms, processSym, initState, h1, h, h3, h4, emit_symbol,
      set_define, dictInsert, config_key_ne]

lemma processSym_skip_empty_value (st : CacheState) (sym : KSym)
    (ht : sym.type = SymType.int ∨ sym.type = SymType.hex ∨
      sym.type = SymType.str)
    (hv : sym.strValue = none ∨ sym.strValue = some "") :
    processSym st sym = st := by
  by_cases hn : sym.name = ""
  · simp [processSym, hn]
  · rcases ht with h | h | h <;> rcases hv with h2 | h2 <;>
      simp [processSym, hn, h, h2]

lemma lookupD_cons_self (k v : String) (d : List (String × String)) :
    lookupD ((k, v) :: d) k = v := by
  simp [lookupD, List.find?]

/-! ### Claim theorems -/

/-- Claim C1, as stated, is false: for the module-selected tri-state
symbol `BAR` the aggregated collection holds `BAR=m`, `CONFIG_BAR=m`,
`BAR_MODULE=1` and `CONFIG_BAR_MODULE=1` — the value of `BAR` and
`CONFIG_BAR` is `m`, not `1`, and `CONFIG_BAR_MODULE=1` is a fourth
entry the claim excludes.  (The `set(CONFIG_BAR "m")` part holds.) -/
theorem c1_as_stated_counterexample :
    (processSyms [⟨"BAR", SymType.tristate, 1, none⟩]).defines =
      [("BAR", "m"), ("CONFIG_BAR", "m"), ("BAR_MODULE", "1"),
        ("CONFIG_BAR_MODULE", "1")] ∧
    ("BAR", "1") ∉ (processSyms [⟨"BAR", SymType.tristate, 1, none⟩]).defines ∧
    ("CONFIG_BAR", "1") ∉
      (processSyms [⟨"BAR", SymType.tristate, 1, none⟩]).defines ∧
    "    \"BAR=1\"" ∉
      output_lines (processSyms [⟨"BAR", SymType.tristate, 1, none⟩]) ∧
    "    \"BAR=m\"" ∈
      output_lines (processSyms [⟨"BAR", SymType.tristate, 1, none⟩]) ∧
    "set(CONFIG_BAR \"m\")" ∈
      (processSyms [⟨"BAR", SymType.tristate, 1, none⟩]).cmake_sets := by
  decide

/-- Claim C1 (amended): for every tri-state symbol resolved as
module-selected with name `BAR`, the aggregated collection contains
exactly the entries `BAR=m`, `CONFIG_BAR=m`, `BAR_MODULE=1` and
`CONFIG_BAR_MODULE=1`, and the assignment-statement sequence contains
exactly `set(CONFIG_BAR "m")`. -/
theorem c1_module_selected_amended (sym : KSym) (h1 : ¬ sym.name = "")
    (h2 : sym.type = SymType.tristate) (h3 : sym.triValue = 1) :
    processSyms [sym] =
      { defines := [(sym.name, "m"), ("CONFIG_" ++ sym.name, "m"),
          (sym.name ++ "_MODULE", "1"),
          ("CONFIG_" ++ (sym.name ++ "_MODULE"), "1")],
        cmake_sets := ["set(CONFIG_" ++ sym.name ++ " \"m\")"] } :=
  singleton_tristate_m_state sym h1 h2 h3

/-- Witness for the amended claim C1 at the concrete symbol `BAR`. -/
theorem c1_module_selected_amended_witness :
    (¬ ("BAR" : String) = "") ∧
    processSyms [⟨"BAR", SymType.tristate, 1, none⟩] =
      { defines := [("BAR", "m"), ("CONFIG_" ++ "BAR", "m"),
          ("BAR" ++ "_MODULE", "1"),
          ("CONFIG_" ++ ("BAR" ++ "_MODULE"), "1")],
        cmake_sets := ["set(CONFIG_" ++ "BAR" ++ " \"m\")"] } :=
  ⟨by decide,
    c1_module_selected_amended ⟨"BAR", SymType.tristate, 1, none⟩
      (by decide) rfl rfl⟩

/-- Claim C2: when `import kconfiglib` fails, the run exits with code 1,
emits a diagnostic on stderr, and does not write the output file. -/
theorem c2_missing_interpreter (env : Env)
    (h : env.kconfiglibAvailable = false) :
    generate_cache env =
      { exitCode := 1, output := none,
        stderr := ["kconfiglib is not installed.\n"] } := by
  simp [generate_cache, h]

/-- Witness for claim C2 at a concrete environment. -/
theorem c2_missing_interpreter_witness :
    ((⟨false, true, true, "Kconfig", ".config", []⟩ : Env).kconfiglibAvailable
        = false) ∧
    generate_cache ⟨false, true, true, "Kconfig", ".config", []⟩ =
      { exitCode := 1, output := none,
        stderr := ["kconfiglib is not installed.\n"] } :=
  ⟨rfl, c2_missing_interpreter _ rfl⟩

/-- Claim C3: with the interpreter available but the schema file
missing, the run exits 0 and the output file contents equal exactly the
fixed placeholder text. -/
theorem c3_missing_schema_placeholder (env : Env)
    (h1 : env.kconfiglibAvailable = true) (h2 : env.kconfigIsFile = false) :
    (generate_cache env).exitCode = 0 ∧
    (generate_cache env).output =
      some ("# Auto-generated placeholder. Run menuconfig to populate symbols.\nset(AEROSYNC_KCONFIG_DEFINES)\n") := by
  simp [generate_cache, h1, h2, minimal_output_text]

/-- Witness for claim C3 at a concrete environment. -/
theorem c3_missing_schema_placeholder_witness :
    ((⟨true, false, true, "Kconfig", ".config", []⟩ : Env).kconfiglibAvailable
        = true) ∧
    ((⟨true, false, true, "Kconfig", ".config", []⟩ : Env).kconfigIsFile
        = false) ∧
    ((generate_cache ⟨true, false, true, "Kconfig", ".config", []⟩).exitCode
        = 0 ∧
      (generate_cache ⟨true, false, true, "Kconfig", ".config", []⟩).output =
        some ("# Auto-generated placeholder. Run menuconfig to populate symbols.\nset(AEROSYNC_KCONFIG_DEFINES)\n")) :=
  ⟨rfl, rfl, c3_missing_schema_placeholder _ rfl rfl⟩

/-- Claim C4: for every boolean symbol resolved as fully-selected with
name `FOO`, the aggregated collection contains `FOO=1` and
`CONFIG_FOO=1`, and the assignment-statement sequence contains
`set(CONFIG_FOO "y")`. -/
theorem c4_bool_fully_selected (sym : KSym) (h1 : ¬ sym.name = "")
    (h2 : sym.type = SymType.bool) (h3 : sym.triValue = 2) :
    processSyms [sym] =
      { defines := [(sym.name, "1"), ("CONFIG_" ++ sym.name, "1")],
        cmake_sets := ["set(CONFIG_" ++ sym.name ++ " \"y\")"] } :=
  singleton_bool_y_state sym h1 h2 h3

/-- Witness for claim C4 at the concrete symbol `FOO`. -/
theorem c4_bool_fully_selected_witness :
    (¬ ("FOO" : String) = "") ∧
    processSyms [⟨"FOO", SymType.bool, 2, none⟩] =
      { defines := [("FOO", "1"), ("CONFIG_" ++ "FOO", "1")],
        cmake_sets := ["set(CONFIG_" ++ "FOO" ++ " \"y\")"] } :=
  ⟨by decide,
    c4_bool_fully_selected ⟨"FOO", SymType.bool, 2, none⟩ (by decide) rfl rfl⟩

/-- Claim C5: for every schema, the aggregated collection's entry names
are sorted lexicographically (and are a permutation of the defines-dict
keys, so nothing is added or lost), while the assignment-statement
sequence is the concatenation, in schema declaration order, of each
symbol's own assignment lines. -/
theorem c5_ordering (syms : List KSym) :
    List.Sorted strDataLe (sortedNames (processSyms syms)) ∧
    (sortedNames (processSyms syms)).Perm
      ((processSyms syms).defines.map Prod.fst) ∧
    (processSyms syms).cmake_sets = (syms.map symSets).flatten := by
  haveI : IsTotal String strDataLe := ⟨fun a b => le_total a.data b.data⟩
  haveI : IsTrans String strDataLe := ⟨fun a b c hab hbc => le_trans hab hbc⟩
  refine ⟨List.sorted_insertionSort strDataLe _,
    List.perm_insertionSort strDataLe _, ?_⟩
  simpa [processSyms, initState] using foldl_cmake_sets syms initState

/-- Claim C6: `_cmake_escape` escapes backslashes and double quotes so
that decoding the quoted literal recovers the original value exactly,
and the emitted assignment statement carries exactly that escaped
literal. -/
theorem c6_escape_round_trip :
    (∀ value : String, unescape (cmake_escape value) = value) ∧
    ∀ (st : CacheState) (sym : KSym) (v : String),
      sym.type = SymType.str → ¬ sym.name = "" → sym.strValue = some v →
      ¬ v = "" →
      ("set(CONFIG_" ++ sym.name ++ " \"" ++ cmake_escape v ++ "\")") ∈
        (processSym st sym).cmake_sets := by
  refine ⟨escape_roundtrip, ?_⟩
  intro st sym v ht hn hv hve
  rw [processSym_cmake_sets]
  simp [symSets, ht, hn, hv, hve]

/-- Witness for claim C6 at the value from the spec, `it's "quoted"`. -/
theorem c6_escape_round_trip_witness :
    ((⟨"NAME", SymType.str, 0, some "it's \"quoted\""⟩ : KSym).type =
        SymType.str ∧
      ¬ (⟨"NAME", SymType.str, 0, some "it's \"quoted\""⟩ : KSym).name = "" ∧
      ¬ ("it's \"quoted\"" : String) = "") ∧
    unescape (cmake_escape "it's \"quoted\"") = "it's \"quoted\"" ∧
    ("set(CONFIG_" ++ "NAME" ++ " \"" ++ cmake_escape "it's \"quoted\"" ++
        "\")") ∈
      (processSym initState
        ⟨"NAME", SymType.str, 0, some "it's \"quoted\""⟩).cmake_sets :=
  ⟨⟨rfl, by decide, by decide⟩,
    c6_escape_round_trip.1 "it's \"quoted\"",
    c6_escape_round_trip.2 initState
      ⟨"NAME", SymType.str, 0, some "it's \"quoted\""⟩ "it's \"quoted\""
      rfl (by decide) rfl (by decide)⟩

/-- Claim C7: a boolean or tri-state symbol whose resolved value is
unselected (tri-value 0) contributes nothing: the whole run output over
any schema containing it equals the output over the schema without it. -/
theorem c7_unselected_no_output (pre post : List KSym) (sym : KSym)
    (ht : sym.type = SymType.bool ∨ sym.type = SymType.tristate)
    (hv : sym.triValue = 0) :
    processSyms (pre ++ sym :: post) = processSyms (pre ++ post) := by
  have h := processSym_skip_unselected (pre.foldl processSym initState) sym
    ht hv
  simp [processSyms, List.foldl_append, List.foldl_cons, h]

/-- Witness for claim C7 at a concrete schema. -/
theorem c7_unselected_no_output_witness :
    ((⟨"OFF", SymType.bool, 0, none⟩ : KSym).type = SymType.bool ∨
      (⟨"OFF", SymType.bool, 0, none⟩ : KSym).type = SymType.tristate) ∧
    (⟨"OFF", SymType.bool, 0, none⟩ : KSym).triValue = 0 ∧
    processSyms ([⟨"A", SymType.bool, 2, none⟩] ++
        (⟨"OFF", SymType.bool, 0, none⟩ : KSym) ::
          [⟨"V", SymType.int, 0, some "7"⟩]) =
      processSyms ([⟨"A", SymType.bool, 2, none⟩] ++
        [⟨"V", SymType.int, 0, some "7"⟩]) :=
  ⟨Or.inl rfl, rfl,
    c7_unselected_no_output [⟨"A", SymType.bool, 2, none⟩]
      [⟨"V", SymType.int, 0, some "7"⟩] ⟨"OFF", SymType.bool, 0, none⟩
      (Or.inl rfl) rfl⟩

/-- Claim C8: an int/hex/string symbol with an empty resolved value
produces no output at all; otherwise the bare-name and the
`CONFIG_`-prefixed entries are emitted with the value (quote-wrapped in
the aggregated entries for strings only) plus one assignment line. -/
theorem c8_value_symbols :
    (∀ (st : CacheState) (sym : KSym),
      (sym.type = SymType.int ∨ sym.type = SymType.hex ∨
        sym.type = SymType.str) →
      (sym.strValue = none ∨ sym.strValue = some "") →
      processSym st sym = st) ∧
    (∀ (sym : KSym) (v : String), ¬ sym.name = "" →
      sym.type = SymType.str → sym.strValue = some v → ¬ v = "" →
      processSyms [sym] =
        { defines := [(sym.name, "\"" ++ v ++ "\""),
            ("CONFIG_" ++ sym.name, "\"" ++ v ++ "\"")],
          cmake_sets :=
            ["set(CONFIG_" ++ sym.name ++ " \"" ++ cmake_escape v ++
              "\")"] }) ∧
    (∀ (sym : KSym) (v : String), ¬ sym.name = "" →
      (sym.type = SymType.int ∨ sym.type = SymType.hex) →
      sym.strValue = some v → ¬ v = "" →
      processSyms [sym] =
        { defines := [(sym.name, v), ("CONFIG_" ++ sym.name, v)],
          cmake_sets :=
            ["set(CONFIG_" ++ sym.name ++ " \"" ++ cmake_escape v ++
              "\")"] }) :=
  ⟨processSym_skip_empty_value,
   fun sym v h1 h2 h3 h4 => singleton_str_state sym v h1 h2 h3 h4,
   fun sym v h1 h2 h3 h4 => singleton_numeric_state sym v h1 h2 h3 h4⟩

/-- Witness for claim C8 at concrete int, string and empty-value symbols. -/
theorem c8_value_symbols_witness :
    processSym initState ⟨"EMPTY", SymType.int, 0, some ""⟩ = initState ∧
    processSyms [⟨"GREETING", SymType.str, 0, some "hi"⟩] =
      { defines := [("GREETING", "\"" ++ "hi" ++ "\""),
          ("CONFIG_" ++ "GREETING", "\"" ++ "hi" ++ "\"")],
        cmake_sets :=
          ["set(CONFIG_" ++ "GREETING" ++ " \"" ++ cmake_escape "hi" ++
            "\")"] } ∧
    processSyms [⟨"WIDTH", SymType.int, 0, some "32"⟩] =
      { defines := [("WIDTH", "32"), ("CONFIG_" ++ "WIDTH", "32")],
        cmake_sets :=
          ["set(CONFIG_" ++ "WIDTH" ++ " \"" ++ cmake_escape "32" ++
            "\")"] } :=
  ⟨c8_value_symbols.1 initState ⟨"EMPTY", SymType.int, 0, some ""⟩
      (Or.inl rfl) (Or.inr rfl),
   c8_value_symbols.2.1 ⟨"GREETING", SymType.str, 0, some "hi"⟩ "hi"
      (by decide) rfl rfl (by decide),
   c8_value_symbols.2.2 ⟨"WIDTH", SymType.int, 0, some "32"⟩ "32"
      (by decide) (Or.inl rfl) rfl (by decide)⟩

/-- Claim C9: for a schema defining zero symbols (interpreter available,
schema file present), the run exits 0 and the written document has an
empty aggregated collection and an empty assignment-statement sequence. -/
theorem c9_empty_schema (env : Env) (h1 : env.kconfiglibAvailable = true)
    (h2 : env.kconfigIsFile = true) (h3 : env.syms = []) :
    (generate_cache env).exitCode = 0 ∧
    (generate_cache env).output = some (output_text (processSyms env.syms)) ∧
    definesLines (processSyms env.syms) = [] ∧
    (processSyms env.syms).cmake_sets = [] ∧
    output_text (processSyms env.syms) =
      "# This file is auto-generated. Do not edit.\nset(AEROSYNC_KCONFIG_DEFINES\n)\n\n\n" := by
  refine ⟨by simp [generate_cache, h1, h2], by simp [generate_cache, h1, h2],
    ?_, ?_, ?_⟩ <;> rw [h3] <;> decide

/-- Witness for claim C9 at a concrete environment. -/
theorem c9_empty_schema_witness :
    ((⟨true, true, true, "Kconfig", ".config", []⟩ : Env).kconfiglibAvailable
        = true) ∧
    ((⟨true, true, true, "Kconfig", ".config", []⟩ : Env).kconfigIsFile
        = true) ∧
    ((⟨true, true, true, "Kconfig", ".config", []⟩ : Env).syms = []) ∧
    ((generate_cache ⟨true, true, true, "Kconfig", ".config", []⟩).exitCode
        = 0 ∧
      (generate_cache ⟨true, true, true, "Kconfig", ".config", []⟩).output =
        some (output_text (processSyms
          (⟨true, true, true, "Kconfig", ".config", []⟩ : Env).syms)) ∧
      definesLines (processSyms
        (⟨true, true, true, "Kconfig", ".config", []⟩ : Env).syms) = [] ∧
      (processSyms
        (⟨true, true, true, "Kconfig", ".config", []⟩ : Env).syms).cmake_sets
        = [] ∧
      output_text (processSyms
        (⟨true, true, true, "Kconfig", ".config", []⟩ : Env).syms) =
        "# This file is auto-generated. Do not edit.\nset(AEROSYNC_KCONFIG_DEFINES\n)\n\n\n") :=
  ⟨rfl, rfl, rfl,
    (c9_empty_schema ⟨true, true, true, "Kconfig", ".config", []⟩ rfl rfl
      rfl).1,
    (c9_empty_schema ⟨true, true, true, "Kconfig", ".config", []⟩ rfl rfl
      rfl).2.1,
    (c9_empty_schema ⟨true, true, true, "Kconfig", ".config", []⟩ rfl rfl
      rfl).2.2.1,
    (c9_empty_schema ⟨true, true, true, "Kconfig", ".config", []⟩ rfl rfl
      rfl).2.2.2.1,
    (c9_empty_schema ⟨true, true, true, "Kconfig", ".config", []⟩ rfl rfl
      rfl).2.2.2.2⟩

/-- Claim C10: for a string symbol with non-empty value `V`, the stored
aggregated value is `"V"` (quotes included); the aggregated line escapes
that whole stored value, so decoding it yields `V` still wrapped in
quotes, which differs from the value `V` recovered from the assignment
statement. -/
theorem c10_string_value_quoted (sym : KSym) (v : String)
    (h1 : sym.type = SymType.str) (h2 : ¬ sym.name = "")
    (h3 : sym.strValue = some v) (h4 : ¬ v = "") :
    (sym.name, "\"" ++ v ++ "\"") ∈ (processSyms [sym]).defines ∧
    ("    \"" ++ cmake_escape sym.name ++ "=" ++
        cmake_escape ("\"" ++ v ++ "\"") ++ "\"") ∈
      definesLines (processSyms [sym]) ∧
    ("set(CONFIG_" ++ sym.name ++ " \"" ++ cmake_escape v ++ "\")") ∈
      (processSyms [sym]).cmake_sets ∧
    unescape (cmake_escape ("\"" ++ v ++ "\"")) = "\"" ++ v ++ "\"" ∧
    unescape (cmake_escape v) = v ∧
    ¬ ("\"" ++ v ++ "\"" = v) := by
  have hstate := singleton_str_state sym v h2 h1 h3 h4
  refine ⟨?_, ?_, ?_, escape_roundtrip _, escape_roundtrip _, ?_⟩
  · rw [hstate]; simp
  · rw [hstate]
    refine List.mem_map.mpr ⟨sym.name, ?_, ?_⟩
    · simp only [sortedNames, List.mem_insertionSort]
      simp
    · simp [lookupD_cons_self]
  · rw [hstate]; simp
  · apply strlen_ne
    rw [String.length_append, String.length_append,
      show ("\"" : String).length = 1 from rfl]
    omega

/-- Witness for claim C10 at the concrete symbol `TITLE` = `hello`. -/
theorem c10_string_value_quoted_witness :
    ((⟨"TITLE", SymType.str, 0, some "hello"⟩ : KSym).type = SymType.str ∧
      ¬ (⟨"TITLE", SymType.str, 0, some "hello"⟩ : KSym).name = "" ∧
      ¬ ("hello" : String) = "") ∧
    (("TITLE", "\"" ++ "hello" ++ "\"") ∈
        (processSyms [⟨"TITLE", SymType.str, 0, some "hello"⟩]).defines ∧
      ("    \"" ++ cmake_escape "TITLE" ++ "=" ++
          cmake_escape ("\"" ++ "hello" ++ "\"") ++ "\"") ∈
        definesLines (processSyms [⟨"TITLE", SymType.str, 0, some "hello"⟩]) ∧
      ("set(CONFIG_" ++ "TITLE" ++ " \"" ++ cmake_escape "hello" ++ "\")") ∈
        (processSyms [⟨"TITLE", SymType.str, 0, some "hello"⟩]).cmake_sets ∧
      unescape (cmake_escape ("\"" ++ "hello" ++ "\"")) =
        "\"" ++ "hello" ++ "\"" ∧
      unescape (cmake_escape "hello") = "hello" ∧
      ¬ ("\"" ++ "hello" ++ "\"" = "hello")) :=
  ⟨⟨rfl, by decide, by decide⟩,
    c10_string_value_quoted ⟨"TITLE", SymType.str, 0, some "hello"⟩ "hello"
      rfl (by decide) rfl (by decide)⟩
